import Mathlib

/-!
Verification of `scripts/test-mcp-proxy.py`, the manual E2E harness for the
coral MCP proxy, together with a model — taken from the design document — of
the proxy process the harness exercises (session state machine, dispatcher,
tool registry).

The harness exchanges newline-delimited JSON-RPC 2.0 messages with the proxy
over its stdin/stdout.  We embed the JSON values the harness manipulates as an
inductive type, the Python-side serialization (`json.dumps`) and parsing
(`json.loads`) as executable functions, and the harness's test logic
(`send_mcp_request`, the four test blocks of `main`, `check_colony_running`)
as pure functions over an explicit process-interaction state.  External
effects (the HTTP GET to the colony, the proxy's replies on stdout, the
`poll()` liveness probe) enter as oracle parameters.
-/

namespace CoralMcp

/-- JSON values as produced by Python's `json.loads`.  Numbers are modelled as
integers: every numeric literal appearing in the harness (ids, error codes) is
an integer, and fractional forms play no role in any property below.  Objects
are association lists; `json.loads` keeps one binding per key, and the harness
only ever reads objects, so lookup of the first binding is faithful. -/
inductive Json where
  | null : Json
  | bool (b : Bool) : Json
  | num (n : Int) : Json
  | str (s : String) : Json
  | arr (elems : List Json) : Json
  | obj (fields : List (String × Json)) : Json

namespace Json

/-- Python `value[key]` on a parsed JSON value, as a total function: `some v`
when `value` is an object with a binding for `key`, `none` otherwise (Python
raises `KeyError`/`TypeError` there; every use below treats `none` as the
raising path). -/
def get? : Json → String → Option Json
  | .obj fields, key =>
    match fields.find? (fun f => f.1 = key) with
    | some f => some f.2
    | none => none
  | _, _ => none

/-- Python `key in value` for the dict case.  In the harness this test only
runs after an earlier subscript on the same value succeeded, so the value is
known to be a dict; for non-objects we return `false`. -/
def hasKey (j : Json) (key : String) : Bool :=
  (j.get? key).isSome

end Json

/-! ### Serialization: Python `json.dumps`

`json.dumps` with default arguments separates items with `", "` and keys from
values with `": "`, escapes the two JSON metacharacters, the common control
characters, and any other control character as `\u00XX`.  (Python also
escapes non-ASCII characters by default; the harness's requests are pure
ASCII, and we emit non-ASCII characters raw, which still never produces a
newline.) -/

/-- Lower-case hex digit for a nibble: `0`-`9` then `a`-`f`. -/
def hexChar (n : Nat) : Char :=
  if n < 10 then Char.ofNat (48 + n)
  else if n < 16 then Char.ofNat (87 + n)
  else '0'

/-- Escape one character of a JSON string literal, as `json.dumps` does. -/
def escapeChar (c : Char) : String :=
  if c = '"' then "\\\""
  else if c = '\\' then "\\\\"
  else if c = '\n' then "\\n"
  else if c = '\r' then "\\r"
  else if c = '\t' then "\\t"
  else if c.toNat < 32 then
    "\\u00" ++ String.singleton (hexChar (c.toNat / 16))
            ++ String.singleton (hexChar (c.toNat % 16))
  else String.singleton c

/-- Escape a list of characters of a JSON string literal body. -/
def escapeList : List Char → String
  | [] => ""
  | c :: cs => escapeChar c ++ escapeList cs

/-- Escape the body of a JSON string literal. -/
def escapeString (s : String) : String :=
  escapeList s.data

mutual

/-- Python `json.dumps` with default separators. -/
def dumps : Json → String
  | .null => "null"
  | .bool true => "true"
  | .bool false => "false"
  | .num n => toString n
  | .str s => "\"" ++ escapeString s ++ "\""
  | .arr elems => "[" ++ dumpsElems elems ++ "]"
  | .obj fields => "\x7b" ++ dumpsFields fields ++ "\x7d"

/-- Comma-separated serialization of array elements. -/
def dumpsElems : List Json → String
  | [] => ""
  | [x] => dumps x
  | x :: xs => dumps x ++ ", " ++ dumpsElems xs

/-- Comma-separated serialization of object members. -/
def dumpsFields : List (String × Json) → String
  | [] => ""
  | [f] => "\"" ++ escapeString f.1 ++ "\": " ++ dumps f.2
  | f :: fs => "\"" ++ escapeString f.1 ++ "\": " ++ dumps f.2 ++ ", " ++ dumpsFields fs

end

/-! ### Parsing: Python `json.loads`

The harness applies `json.loads` to each line read from the proxy's stdout;
a malformed line raises, which the surrounding `try` turns into a failed run.
We embed `loads` as a fuel-indexed recursive-descent parser returning
`Option Json`; as with `dumps`, numbers are integers (a fractional literal
leaves a nonempty remainder and the parse fails). -/

/-- JSON whitespace, as accepted between tokens by `json.loads`. -/
def isJsonWs (c : Char) : Bool :=
  c = ' ' || c = '\t' || c = '\n' || c = '\r'

/-- Drop leading JSON whitespace. -/
def skipWs (cs : List Char) : List Char :=
  cs.dropWhile isJsonWs

/-- Value of a hex digit, `none` for any other character. -/
def hexVal (c : Char) : Option Nat :=
  if '0' ≤ c ∧ c ≤ '9' then some (c.toNat - 48)
  else if 'a' ≤ c ∧ c ≤ 'f' then some (c.toNat - 87)
  else if 'A' ≤ c ∧ c ≤ 'F' then some (c.toNat - 55)
  else none

/-- Parse the body of a JSON string literal (the opening quote already
consumed), returning the decoded string and the remainder after the closing
quote. -/
def parseStringBody (cs : List Char) : Option (String × List Char) :=
  match cs with
  | [] => none
  | '"' :: rest => some ("", rest)
  | '\\' :: esc :: rest =>
    (match esc with
     | '"' => (parseStringBody rest).map (fun p => (String.singleton '"' ++ p.1, p.2))
     | '\\' => (parseStringBody rest).map (fun p => (String.singleton '\\' ++ p.1, p.2))
     | '/' => (parseStringBody rest).map (fun p => (String.singleton '/' ++ p.1, p.2))
     | 'b' => (parseStringBody rest).map (fun p => (String.singleton (Char.ofNat 8) ++ p.1, p.2))
     | 'f' => (parseStringBody rest).map (fun p => (String.singleton (Char.ofNat 12) ++ p.1, p.2))
     | 'n' => (parseStringBody rest).map (fun p => (String.singleton '\n' ++ p.1, p.2))
     | 'r' => (parseStringBody rest).map (fun p => (String.singleton '\r' ++ p.1, p.2))
     | 't' => (parseStringBody rest).map (fun p => (String.singleton '\t' ++ p.1, p.2))
     | 'u' =>
       match rest with
       | a :: b :: c :: d :: rest' =>
         match hexVal a, hexVal b, hexVal c, hexVal d with
         | some va, some vb, some vc, some vd =>
           (parseStringBody rest').map (fun p =>
             (String.singleton (Char.ofNat (va * 4096 + vb * 256 + vc * 16 + vd)) ++ p.1, p.2))
         | _, _, _, _ => none
       | _ => none
     | _ => none)
  | c :: rest =>
    if c.toNat < 32 then none
    else (parseStringBody rest).map (fun p => (String.singleton c ++ p.1, p.2))

/-- Parse a nonempty run of decimal digits into its value. -/
def parseDigits (cs : List Char) (acc : Nat) (seen : Bool) : Option (Nat × List Char) :=
  match cs with
  | c :: rest =>
    if '0' ≤ c ∧ c ≤ '9' then parseDigits rest (acc * 10 + (c.toNat - 48)) true
    else if seen then some (acc, cs) else none
  | [] => if seen then some (acc, cs) else none

mutual

/-- Recursive-descent parser for one JSON value; `fuel` bounds the recursion
depth and is chosen large enough in `loads` that it never runs out on the
input at hand. -/
def parseVal : Nat → List Char → Option (Json × List Char)
  | 0, _ => none
  | fuel + 1, cs =>
    match skipWs cs with
    | 'n' :: 'u' :: 'l' :: 'l' :: rest => some (.null, rest)
    | 't' :: 'r' :: 'u' :: 'e' :: rest => some (.bool true, rest)
    | 'f' :: 'a' :: 'l' :: 's' :: 'e' :: rest => some (.bool false, rest)
    | '"' :: rest => (parseStringBody rest).map (fun p => (.str p.1, p.2))
    | '[' :: rest =>
      (match skipWs rest with
       | ']' :: rest' => some (.arr [], rest')
       | other => (parseElems fuel other).map (fun p => (.arr p.1, p.2)))
    | '\x7b' :: rest =>
      (match skipWs rest with
       | '\x7d' :: rest' => some (.obj [], rest')
       | other => (parseFields fuel other).map (fun p => (.obj p.1, p.2)))
    | '-' :: rest =>
      (parseDigits rest 0 false).map (fun p => (.num (-(p.1 : Int)), p.2))
    | other =>
      (parseDigits other 0 false).map (fun p => (.num (p.1 : Int), p.2))

/-- Parse a nonempty comma-separated list of array elements up to `]`. -/
def parseElems : Nat → List Char → Option (List Json × List Char)
  | 0, _ => none
  | fuel + 1, cs => do
    let (v, cs1) ← parseVal fuel cs
    match skipWs cs1 with
    | ',' :: cs2 => (parseElems fuel cs2).map (fun p => (v :: p.1, p.2))
    | ']' :: cs2 => some ([v], cs2)
    | _ => none

/-- Parse a nonempty comma-separated list of object members up to the closing
brace. -/
def parseFields : Nat → List Char → Option (List (String × Json) × List Char)
  | 0, _ => none
  | fuel + 1, cs => do
    match skipWs cs with
    | '"' :: cs1 => do
      let (key, cs2) ← parseStringBody cs1
      match skipWs cs2 with
      | ':' :: cs3 => do
        let (v, cs4) ← parseVal fuel cs3
        match skipWs cs4 with
        | ',' :: cs5 => (parseFields fuel cs5).map (fun p => ((key, v) :: p.1, p.2))
        | '\x7d' :: cs5 => some ([(key, v)], cs5)
        | _ => none
      | _ => none
    | _ => none

end

/-- Python `json.loads`: parse a complete document, tolerating surrounding
whitespace; `none` is the raising path. -/
def loads (s : String) : Option Json :=
  match parseVal (2 * s.length + 2) s.data with
  | some (j, rest) => if skipWs rest = [] then some j else none
  | none => none

/-! ### The harness: `scripts/test-mcp-proxy.py`

`check_colony_running` performs `requests.get("http://localhost:9000",
timeout=2)` inside a bare `try`/`except`.  The outcome of that call is an
oracle: either the GET completed (with some status and body — `requests.get`
does not raise on non-2xx statuses) or it raised (connection refused, timeout,
or any other exception). -/

/-- Outcome of the HTTP GET issued by `check_colony_running`. -/
inductive HttpOutcome where
  | response (status : Nat) (body : String)
  | exc (message : String)

/-- Line 15-21 of the harness: `check_colony_running` returns `True` exactly
when the GET completed, and `False` on any exception; the bare `except:`
swallows everything, so no exception propagates. -/
def check_colony_running : HttpOutcome → Bool
  | .response _ _ => true
  | .exc _ => false

/-- One observable interaction of the harness with the proxy subprocess:
bytes written to the proxy's stdin, or a line read from its stdout. -/
inductive Event where
  | write (bytes : String)
  | read (line : String)

/-- State of the proxy subprocess's pipes as seen by the harness: bytes
flushed to its stdin, bytes written but not yet flushed, and the lines the
proxy will deliver (in order) on its stdout.  `readline` at end of this list
is end-of-stream and returns the empty string. -/
structure ProcState where
  flushed : String
  buffered : String
  stdoutLines : List String

/-- Lines 23-37 of the harness.  Serializes the request plus a newline onto
the proxy's stdin, flushes, then reads one line of stdout and parses it; an
empty `readline` (end of stream) or a `json.loads` failure raises — modelled
as `Except.error`.  The returned event list records this call's pipe
interactions. -/
def send_mcp_request (request : Json) (p : ProcState) :
    Except String Json × ProcState × List Event :=
  let request_json := dumps request ++ "\n"
  let p1 : ProcState :=
    { flushed := p.flushed ++ p.buffered ++ request_json
      buffered := ""
      stdoutLines := p.stdoutLines }
  match p1.stdoutLines with
  | [] => (Except.error "No response from proxy", p1, [Event.write request_json])
  | line :: rest =>
    let p2 : ProcState := { p1 with stdoutLines := rest }
    match loads line with
    | some response => (Except.ok response, p2, [Event.write request_json, Event.read line])
    | none => (Except.error "json.loads", p2, [Event.write request_json, Event.read line])

/-- Does this optional JSON value equal the string `s`?  (Python `v == "s"`
after a subscript that may have raised.) -/
def isStrVal (v : Option Json) (s : String) : Bool :=
  match v with
  | some (.str t) => t = s
  | _ => false

/-- Does this optional JSON value equal the integer `n`?  (Python `v == n`.) -/
def isNumVal (v : Option Json) (n : Int) : Bool :=
  match v with
  | some (.num m) => m = n
  | _ => false

/-- Test 1 block (initialize): the conjunction of the harness's assertions,
each `false` branch standing for an `AssertionError` or a raising subscript.
`assert response["jsonrpc"] == "2.0"`, `assert response["id"] == 1`,
`assert "error" not in response`,
`assert response["result"]["protocolVersion"] == "2024-11-05"`,
`assert "serverInfo" in response["result"]`. -/
def test1 (r : Json) : Bool :=
  isStrVal (r.get? "jsonrpc") "2.0" &&
  isNumVal (r.get? "id") 1 &&
  !(r.hasKey "error") &&
  isStrVal ((r.get? "result").bind (fun v => v.get? "protocolVersion")) "2024-11-05" &&
  (match r.get? "result" with
   | some v => v.hasKey "serverInfo"
   | none => false)

/-- After test 2's assertions the harness runs
`len(response["result"]["tools"])` and then iterates the tools printing
`tool['name']`: a non-sized value makes `len` raise, and iterating anything
whose elements are not dicts with a `name` key raises on the first element.
An empty dict or empty string iterates zero times and survives. -/
def toolsUsable : Json → Bool
  | .arr elems => elems.all (fun t => (t.get? "name").isSome)
  | .obj fields => fields.isEmpty
  | .str s => s.isEmpty
  | _ => false

/-- Test 2 block (tools/list): `assert response["jsonrpc"] == "2.0"`,
`assert response["id"] == 2`, `assert "error" not in response`,
`assert "tools" in response["result"]`, then the `len` call and the printing
loop over the tools (see `toolsUsable`). -/
def test2 (r : Json) : Bool :=
  isStrVal (r.get? "jsonrpc") "2.0" &&
  isNumVal (r.get? "id") 2 &&
  !(r.hasKey "error") &&
  (match r.get? "result" with
   | some v => v.hasKey "tools"
   | none => false) &&
  (match (r.get? "result").bind (fun v => v.get? "tools") with
   | some ts => toolsUsable ts
   | none => false)

/-- Test 3 block (tools/call): `assert response["jsonrpc"] == "2.0"`,
`assert response["id"] == 3`; then if `"error" in response` the harness
prints `response['error']['message']` — which raises unless the error value
carries a `message` member — otherwise it runs
`assert "content" in response["result"]`. -/
def test3 (r : Json) : Bool :=
  isStrVal (r.get? "jsonrpc") "2.0" &&
  isNumVal (r.get? "id") 3 &&
  (match r.get? "error" with
   | some e => (e.get? "message").isSome
   | none =>
     match r.get? "result" with
     | some v => v.hasKey "content"
     | none => false)

/-- Test 4 block (invalid method): `assert response["jsonrpc"] == "2.0"`,
`assert response["id"] == 4`, `assert "error" in response`,
`assert response["error"]["code"] == -32601`. -/
def test4 (r : Json) : Bool :=
  isStrVal (r.get? "jsonrpc") "2.0" &&
  isNumVal (r.get? "id") 4 &&
  r.hasKey "error" &&
  isNumVal ((r.get? "error").bind (fun e => e.get? "code")) (-32601)

/-- The four requests `main` sends, verbatim. -/
def initializeReq : Json :=
  .obj [("jsonrpc", .str "2.0"), ("id", .num 1),
        ("method", .str "initialize"), ("params", .obj [])]

/-- Request of test 2. -/
def toolsListReq : Json :=
  .obj [("jsonrpc", .str "2.0"), ("id", .num 2),
        ("method", .str "tools/list"), ("params", .obj [])]

/-- Request of test 3. -/
def toolsCallReq : Json :=
  .obj [("jsonrpc", .str "2.0"), ("id", .num 3),
        ("method", .str "tools/call"),
        ("params", .obj [("name", .str "coral_get_service_health"),
                         ("arguments", .obj [])])]

/-- Request of test 4 — deliberately `list_tools`, not `tools/list`. -/
def invalidMethodReq : Json :=
  .obj [("jsonrpc", .str "2.0"), ("id", .num 4),
        ("method", .str "list_tools"), ("params", .obj [])]

/-- The four exchanges of `main`'s try block, in program order, each request
paired with the assertions run on its response. -/
def testSequence : List (Json × (Json → Bool)) :=
  [(initializeReq, test1), (toolsListReq, test2),
   (toolsCallReq, test3), (invalidMethodReq, test4)]

/-- The body of `main`'s try block: run the exchanges in order, stopping at
the first raising `send_mcp_request` or failed assertion (the `except`
handler then makes `main` return 1).  Produces the success flag, the final
pipe state, and the concatenated interaction trace. -/
def runTests : List (Json × (Json → Bool)) → ProcState → Bool × ProcState × List Event
  | [], p => (true, p, [])
  | (request, check) :: rest, p =>
    match send_mcp_request request p with
    | (Except.ok response, p', evs) =>
      if check response then
        let r := runTests rest p'
        (r.1, r.2.1, evs ++ r.2.2)
      else (false, p', evs)
    | (Except.error _, p', evs) => (false, p', evs)

/-- Result of a `main` run: the return value and which externally visible
steps happened. -/
structure MainResult where
  exit : Nat
  started : Bool
  stdinClosed : Bool
  terminated : Bool
  waited : Bool
  trace : List Event

/-- Lines 39-172 of the harness.  Oracles: `colony` is the outcome of
`check_colony_running`'s GET; `proxyExitedDuringStartup` is whether
`process.poll()` reported an exit after the one-second startup sleep;
`proxyOut` is the line stream the proxy produces on stdout.  When the poll
reports an early exit, `main` returns 1 from outside the try/finally, so the
finally-block cleanup (`process.stdin.close()`, `process.terminate()`,
`process.wait(timeout=5)`) does not run on that path; once the try block is
entered, the finally block runs on every path out of it. -/
def main (colony : HttpOutcome) (proxyExitedDuringStartup : Bool)
    (proxyOut : List String) : MainResult :=
  if check_colony_running colony = false then
    { exit := 1, started := false, stdinClosed := false,
      terminated := false, waited := false, trace := [] }
  else if proxyExitedDuringStartup then
    { exit := 1, started := true, stdinClosed := false,
      terminated := false, waited := false, trace := [] }
  else
    let r := runTests testSequence { flushed := "", buffered := "", stdoutLines := proxyOut }
    { exit := if r.1 then 0 else 1, started := true, stdinClosed := true,
      terminated := true, waited := true, trace := r.2.2 }

/-- Does the line parse to a response passing the given test block? -/
def respOk (check : Json → Bool) (line : String) : Bool :=
  match loads line with
  | some j => check j
  | none => false

/-- Direct (non-sequential) statement that a proxy output stream makes all
four tests pass: at least four lines, and line `k` passes test `k`. -/
def allTestsPass (out : List String) : Bool :=
  match out with
  | l1 :: l2 :: l3 :: l4 :: _ =>
    respOk test1 l1 && respOk test2 l2 && respOk test3 l3 && respOk test4 l4
  | _ => false

/-- The request line written for a request: one JSON document, one newline. -/
def requestLine (request : Json) : String :=
  dumps request ++ "\n"

/-- The fully interleaved write/read trace determined by a request list and
an output stream: each request's line is written, then one response line is
read, until requests or responses run out. -/
def interleave : List Json → List String → List Event
  | [], _ => []
  | request :: _, [] => [Event.write (requestLine request)]
  | request :: reqs, l :: ls =>
    Event.write (requestLine request) :: Event.read l :: interleave reqs ls

/-! ### The proxy (modelled from the spec)

The proxy process the harness drives (`./bin/coral colony mcp proxy`) is not
part of the visible sources; only this harness exercises it.  The definitions
below are therefore modelled from the design document: the Session State
Machine (§4.3), the Method Dispatcher (§4.4) and the Tool Registry & Invoker
(§4.5). -/

/-- Modelled from the spec: the session lifecycle states of §4.3,
`Uninitialized` (initial) → `Initializing` (transient) → `Ready`. -/
inductive SessionState where
  | uninitialized : SessionState
  | initializing : SessionState
  | ready : SessionState
deriving DecidableEq

/-- Modelled from the spec: a ToolDescriptor of §3 — name, description and
input schema; the catalogue of these is immutable and built at startup. -/
structure ToolDescriptor where
  name : String
  description : String
  inputSchema : Json

/-- Modelled from the spec: the proxy's per-process state — the Session
record of §3 plus the tool catalogue owned by the Tool Registry. -/
structure ProxyState where
  sessionState : SessionState
  negotiatedProtocolVersion : Option String
  catalogue : List ToolDescriptor

/-- JSON-RPC error response envelope (§4.2): `id` preserved verbatim,
exactly the `error` member present. -/
def errorResponse (id : Json) (code : Int) (message : String) : Json :=
  .obj [("jsonrpc", .str "2.0"), ("id", id),
        ("error", .obj [("code", .num code), ("message", .str message)])]

/-- JSON-RPC success response envelope (§4.2): exactly the `result` member
present. -/
def resultResponse (id : Json) (result : Json) : Json :=
  .obj [("jsonrpc", .str "2.0"), ("id", id), ("result", result)]

/-- Serialization of one ToolDescriptor in a `tools/list` result (§4.5). -/
def descriptorJson (d : ToolDescriptor) : Json :=
  .obj [("name", .str d.name), ("description", .str d.description),
        ("inputSchema", d.inputSchema)]

/-- Modelled from the spec: the fixed `serverInfo` (name and version) echoed
by `initialize` (§4.3); the concrete strings are unconstrained by the spec. -/
def serverInfoJson : Json :=
  .obj [("name", .str "coral-mcp-proxy"), ("version", .str "0.1.0")]

/-- Modelled from the spec: handling of one decoded request (§4.2-§4.5).
Envelope validation (`jsonrpc` must be `"2.0"`, `method` must be a string)
fails with `InvalidRequest` (-32600); while the session is not `Ready` every
method but `initialize` fails with `InvalidRequest` ("server not
initialized") and leaves the state untouched; `initialize` echoes the fixed
protocol version and serverInfo and moves the session to `Ready`;
`tools/list` returns the catalogue; `tools/call` validates the tool name
against the catalogue and delegates to the backend oracle, mapping backend
failure to a domain error; any other method name is `MethodNotFound`
(-32601).  The backend is an oracle from tool name and arguments to a
content value or an error message (§4.6 maps all transport failures to one
internal error kind). -/
def handleRequest (backend : String → Json → Except String Json)
    (ps : ProxyState) (request : Json) : Json × ProxyState :=
  let id := (request.get? "id").getD .null
  if isStrVal (request.get? "jsonrpc") "2.0" then
    match request.get? "method" with
    | some (.str m) =>
      if m = "initialize" then
        (resultResponse id (.obj
          [("protocolVersion", .str "2024-11-05"),
           ("serverInfo", serverInfoJson),
           ("capabilities", .obj [("tools", .obj [])])]),
         { ps with sessionState := .ready,
                   negotiatedProtocolVersion := some "2024-11-05" })
      else if ps.sessionState ≠ .ready then
        (errorResponse id (-32600) "server not initialized", ps)
      else if m = "tools/list" then
        (resultResponse id (.obj [("tools", .arr (ps.catalogue.map descriptorJson))]), ps)
      else if m = "tools/call" then
        match (request.get? "params").bind (fun p => p.get? "name") with
        | some (.str toolName) =>
          if (ps.catalogue.find? (fun d => d.name = toolName)).isSome then
            match backend toolName
                (((request.get? "params").bind (fun p => p.get? "arguments")).getD (.obj [])) with
            | Except.ok content => (resultResponse id (.obj [("content", content)]), ps)
            | Except.error msg => (errorResponse id (-32000) msg, ps)
          else (errorResponse id (-32000) ("Unknown tool: " ++ toolName), ps)
        | _ => (errorResponse id (-32602) "invalid params", ps)
      else
        (errorResponse id (-32601) ("Method not found: " ++ m), ps)
    | _ => (errorResponse id (-32600) "invalid request", ps)
  else
    (errorResponse id (-32600) "invalid request", ps)

/-- A response envelope carrying an `error` member with the given code. -/
def IsErrorWithCode (response : Json) (code : Int) : Prop :=
  ∃ e, response.get? "error" = some e ∧ e.get? "code" = some (.num code)

/-- A string containing no newline character. -/
def NoNewline (s : String) : Prop :=
  '\n' ∉ s.data

instance noNewlineDecidable (s : String) : Decidable (NoNewline s) :=
  inferInstanceAs (Decidable ('\n' ∉ s.data))

/-- The pass/fail outcome of the try-block as a function of the response
lines alone: the success flag of `runTests` depends only on the line stream,
not on the rest of the pipe state. -/
def checksList : List (Json × (Json → Bool)) → List String → Bool
  | [], _ => true
  | (_, check) :: rest, line :: ls => respOk check line && checksList rest ls
  | _ :: _, [] => false

/-- A concrete proxy output stream on which all four tests pass. -/
def goodProxyOutput : List String :=
  ["\x7b\"jsonrpc\": \"2.0\", \"id\": 1, \"result\": \x7b\"protocolVersion\": \"2024-11-05\", \"serverInfo\": \x7b\"name\": \"coral\"\x7d\x7d\x7d",
   "\x7b\"jsonrpc\": \"2.0\", \"id\": 2, \"result\": \x7b\"tools\": [\x7b\"name\": \"coral_get_service_health\"\x7d]\x7d\x7d",
   "\x7b\"jsonrpc\": \"2.0\", \"id\": 3, \"result\": \x7b\"content\": []\x7d\x7d",
   "\x7b\"jsonrpc\": \"2.0\", \"id\": 4, \"error\": \x7b\"code\": -32601, \"message\": \"method not found\"\x7d\x7d"]

/-! ## Helper lemmas -/

theorem isStrVal_eq_true {v : Option Json} {s : String} :
    isStrVal v s = true ↔ v = some (.str s) := by
  cases v with
  | none => simp [isStrVal]
  | some j => cases j <;> simp [isStrVal]

theorem isNumVal_eq_true {v : Option Json} {n : Int} :
    isNumVal v n = true ↔ v = some (.num n) := by
  cases v with
  | none => simp [isNumVal]
  | some j => cases j <;> simp [isNumVal]

theorem hasKey_eq_true {j : Json} {k : String} :
    j.hasKey k = true ↔ ∃ v, j.get? k = some v := by
  simp [Json.hasKey, Option.isSome_iff_exists]

theorem hasKey_eq_false {j : Json} {k : String} :
    j.hasKey k = false ↔ j.get? k = none := by
  cases h : j.get? k <;> simp [Json.hasKey, h]

/-! ## C9: `check_colony_running` -/

/-- C9: `check_colony_running` is total — it returns a boolean for every
outcome of the GET: `true` exactly when the request completed (whatever the
status), `false` exactly when it raised; no exception propagates past the
bare `except`. -/
theorem check_colony_running_total (o : HttpOutcome) :
    (check_colony_running o = true ↔ ∃ status body, o = .response status body) ∧
    (check_colony_running o = false ↔ ∃ msg, o = .exc msg) := by
  cases o <;> simp [check_colony_running]

/-- Witness: a completed GET at a concrete outcome makes it return `true`. -/
theorem check_colony_running_total_witness :
    check_colony_running (.response 200 "ok") = true :=
  (check_colony_running_total (.response 200 "ok")).1.mpr ⟨200, "ok", rfl⟩

/-! ## C1: acceptance condition for the initialize response -/

/-- C1: the harness's test 1 accepts a response exactly when it has
`jsonrpc` `"2.0"`, `id` `1`, no `error` member, a `result` whose
`protocolVersion` is the fixed string `"2024-11-05"`, and a `serverInfo`
member inside `result`; every other response fails the run (a failing
assertion or a raising subscript, both caught by the `except` handler). -/
theorem initialize_response_acceptance (r : Json) :
    test1 r = true ↔
      (r.get? "jsonrpc" = some (.str "2.0") ∧
       r.get? "id" = some (.num 1) ∧
       r.get? "error" = none ∧
       ∃ res, r.get? "result" = some res ∧
         res.get? "protocolVersion" = some (.str "2024-11-05") ∧
         ∃ si, res.get? "serverInfo" = some si) := by
  constructor
  · intro h
    unfold test1 at h
    simp only [Bool.and_eq_true, isStrVal_eq_true, isNumVal_eq_true,
      Bool.not_eq_true', hasKey_eq_false, Option.bind_eq_some] at h
    obtain ⟨⟨⟨⟨h1, h2⟩, h3⟩, res, hres, hpv⟩, h5⟩ := h
    rw [hres] at h5
    obtain ⟨si, hsi⟩ := hasKey_eq_true.mp h5
    exact ⟨h1, h2, h3, res, hres, hpv, si, hsi⟩
  · rintro ⟨h1, h2, h3, res, hres, hpv, si, hsi⟩
    unfold test1
    simp only [Bool.and_eq_true, isStrVal_eq_true, isNumVal_eq_true,
      Bool.not_eq_true', hasKey_eq_false, Option.bind_eq_some]
    refine ⟨⟨⟨⟨h1, h2⟩, h3⟩, res, hres, hpv⟩, ?_⟩
    rw [hres]
    exact hasKey_eq_true.mpr ⟨si, hsi⟩

/-- Witness: a well-formed initialize response is accepted. -/
theorem initialize_response_acceptance_witness :
    test1 (Json.obj [("jsonrpc", .str "2.0"), ("id", .num 1),
      ("result", .obj [("protocolVersion", .str "2024-11-05"),
                       ("serverInfo", .obj [("name", .str "coral")])])]) = true :=
  (initialize_response_acceptance _).mpr
    ⟨rfl, rfl, rfl, ⟨_, rfl, rfl, _, rfl⟩⟩

/-! ## C2: acceptance condition for the invalid-method response -/

/-- C2: the harness's test 4 (method `list_tools`) passes exactly when the
response carries `jsonrpc` `"2.0"`, `id` `4`, and an `error` member whose
`code` equals -32601; in particular a response without an `error` member, or
with any other error code, fails the harness. -/
theorem invalid_method_response_acceptance (r : Json) :
    test4 r = true ↔
      (r.get? "jsonrpc" = some (.str "2.0") ∧
       r.get? "id" = some (.num 4) ∧
       ∃ e, r.get? "error" = some e ∧ e.get? "code" = some (.num (-32601))) := by
  unfold test4
  simp only [Bool.and_eq_true, isStrVal_eq_true, isNumVal_eq_true,
    hasKey_eq_true, Option.bind_eq_some]
  constructor
  · rintro ⟨⟨⟨h1, h2⟩, _⟩, e, he, hc⟩
    exact ⟨h1, h2, e, he, hc⟩
  · rintro ⟨h1, h2, e, he, hc⟩
    exact ⟨⟨⟨h1, h2⟩, ⟨e, he⟩⟩, e, he, hc⟩

/-- Witness: a MethodNotFound response with code -32601 is accepted. -/
theorem invalid_method_response_acceptance_witness :
    test4 (Json.obj [("jsonrpc", .str "2.0"), ("id", .num 4),
      ("error", .obj [("code", .num (-32601)), ("message", .str "nf")])]) = true :=
  (invalid_method_response_acceptance _).mpr ⟨rfl, rfl, _, rfl, rfl⟩

/-! ## C6: acceptance condition for the tools/call response -/

/-- C6 counterexample: a tools/call response with `jsonrpc` `"2.0"`, `id` 3
and an `error` object — but no `message` member inside it — fails test 3,
because the harness prints `response['error']['message']` before deciding
the test passed, and that subscript raises `KeyError`. -/
theorem tools_call_error_without_message_fails :
    test3 (Json.obj [("jsonrpc", .str "2.0"), ("id", .num 3),
                     ("error", .obj [("code", .num (-32603))])]) = false := rfl

/-- C6 (amended): test 3 accepts exactly the responses carrying `jsonrpc`
`"2.0"` and `id` 3 that either contain an `error` object with a `message`
member (the error is then only reported) or contain no `error` and a
`result` with a `content` member. -/
theorem tools_call_response_acceptance (r : Json) :
    test3 r = true ↔
      (r.get? "jsonrpc" = some (.str "2.0") ∧
       r.get? "id" = some (.num 3) ∧
       ((∃ e m, r.get? "error" = some e ∧ e.get? "message" = some m) ∨
        (r.get? "error" = none ∧
         ∃ res c, r.get? "result" = some res ∧ res.get? "content" = some c))) := by
  unfold test3
  simp only [Bool.and_eq_true, isStrVal_eq_true, isNumVal_eq_true]
  constructor
  · rintro ⟨⟨h1, h2⟩, h3⟩
    refine ⟨h1, h2, ?_⟩
    split at h3
    · rename_i e he
      obtain ⟨m, hm⟩ := Option.isSome_iff_exists.mp h3
      exact Or.inl ⟨e, m, he, hm⟩
    · rename_i he
      split at h3
      · rename_i res hres
        obtain ⟨c, hc⟩ := hasKey_eq_true.mp h3
        exact Or.inr ⟨he, res, c, hres, hc⟩
      · exact absurd h3 (by simp)
  · rintro ⟨h1, h2, h3 | h3⟩
    · obtain ⟨e, m, he, hm⟩ := h3
      refine ⟨⟨h1, h2⟩, ?_⟩
      rw [he]
      simp [hm]
    · obtain ⟨hnone, res, c, hres, hc⟩ := h3
      refine ⟨⟨h1, h2⟩, ?_⟩
      rw [hnone, hres]
      exact hasKey_eq_true.mpr ⟨c, hc⟩

/-- Witness: an error response whose error object has a `message` member is
accepted by test 3 (only reported). -/
theorem tools_call_response_acceptance_witness :
    test3 (Json.obj [("jsonrpc", .str "2.0"), ("id", .num 3),
      ("error", .obj [("code", .num (-32000)), ("message", .str "down")])]) = true :=
  (tools_call_response_acceptance _).mpr
    ⟨rfl, rfl, Or.inl ⟨_, _, rfl, rfl⟩⟩

/-! ## C8: the session gate of the proxy (modelled from the spec) -/

theorem isErrorWithCode_errorResponse (id : Json) (code : Int) (msg : String) :
    IsErrorWithCode (errorResponse id code msg) code :=
  ⟨_, rfl, rfl⟩

/-- C8 (modelled from the spec): while the session is not `Ready`, every
request whose method is not `initialize` — including requests with a missing
or malformed envelope — draws an `InvalidRequest` (-32600) error response,
and the proxy state is unchanged; only `initialize` is accepted before
readiness. -/
theorem pre_initialize_gate (backend : String → Json → Except String Json)
    (ps : ProxyState) (request : Json)
    (hstate : ps.sessionState ≠ SessionState.ready)
    (hmethod : request.get? "method" ≠ some (.str "initialize")) :
    IsErrorWithCode (handleRequest backend ps request).1 (-32600) ∧
    (handleRequest backend ps request).2 = ps := by
  unfold handleRequest
  by_cases hjr : isStrVal (request.get? "jsonrpc") "2.0" = true
  · simp only [hjr, if_true]
    split
    · rename_i m hm
      by_cases hinit : m = "initialize"
      · exact absurd (hinit ▸ hm) hmethod
      · rw [if_neg hinit, if_pos hstate]
        exact ⟨isErrorWithCode_errorResponse _ _ _, rfl⟩
    · exact ⟨isErrorWithCode_errorResponse _ _ _, rfl⟩
  · rw [if_neg hjr]
    exact ⟨isErrorWithCode_errorResponse _ _ _, rfl⟩

/-- Witness: a `tools/list` request sent to an uninitialized proxy is
rejected with `InvalidRequest` and leaves the state untouched. -/
theorem pre_initialize_gate_witness :
    IsErrorWithCode (handleRequest (fun _ _ => Except.error "down")
      ⟨SessionState.uninitialized, none, []⟩ toolsListReq).1 (-32600) ∧
    (handleRequest (fun _ _ => Except.error "down")
      ⟨SessionState.uninitialized, none, []⟩ toolsListReq).2 =
      ⟨SessionState.uninitialized, none, []⟩ :=
  pre_initialize_gate _ _ _ (by decide)
    (by intro h; exact absurd (Json.str.inj (Option.some.inj h)) (by decide))

/-! ## C7: the tools/list catalogue (modelled from the spec) -/

/-- C7 (modelled from the spec): a well-formed `tools/list` request handled
in the `Ready` state returns the serialized catalogue — non-empty whenever
the catalogue built at startup is — leaves the proxy state unchanged, and a
repeated identical call returns the identical response (idempotent, no side
effects). -/
theorem tools_list_catalogue (backend : String → Json → Except String Json)
    (ps : ProxyState) (request : Json)
    (hready : ps.sessionState = SessionState.ready)
    (hcat : ps.catalogue ≠ [])
    (hjr : request.get? "jsonrpc" = some (.str "2.0"))
    (hm : request.get? "method" = some (.str "tools/list")) :
    (handleRequest backend ps request).1 =
      resultResponse ((request.get? "id").getD .null)
        (.obj [("tools", .arr (ps.catalogue.map descriptorJson))]) ∧
    (handleRequest backend ps request).2 = ps ∧
    ps.catalogue.map descriptorJson ≠ [] ∧
    handleRequest backend (handleRequest backend ps request).2 request =
      handleRequest backend ps request := by
  have key : handleRequest backend ps request =
      (resultResponse ((request.get? "id").getD .null)
        (.obj [("tools", .arr (ps.catalogue.map descriptorJson))]), ps) := by
    unfold handleRequest
    rw [hm]
    simp [hjr, isStrVal, hready]
  refine ⟨by rw [key], by rw [key], by simpa using hcat, ?_⟩
  rw [key]
  exact key

/-- Witness: with a one-tool catalogue in the `Ready` state, `tools/list`
leaves the proxy state unchanged. -/
theorem tools_list_catalogue_witness :
    (handleRequest (fun _ _ => Except.error "down")
      ⟨SessionState.ready, some "2024-11-05",
       [⟨"coral_get_service_health", "Service health", Json.obj []⟩]⟩
      toolsListReq).2 =
    ⟨SessionState.ready, some "2024-11-05",
     [⟨"coral_get_service_health", "Service health", Json.obj []⟩]⟩ :=
  (tools_list_catalogue (fun _ _ => Except.error "down")
    ⟨SessionState.ready, some "2024-11-05",
     [⟨"coral_get_service_health", "Service health", Json.obj []⟩]⟩
    toolsListReq rfl (by simp) rfl rfl).2.1

/-! ## C3: wire discipline of `send_mcp_request`

The claim needs that a serialized request is newline-free, so that writing
`dumps request ++ "\n"` is exactly one JSON document followed by exactly one
newline. -/

theorem noNewline_append {a b : String} :
    NoNewline (a ++ b) ↔ NoNewline a ∧ NoNewline b := by
  simp [NoNewline, String.data_append, List.mem_append, not_or]

theorem hexChar_ne_newline (n : Nat) : hexChar n ≠ '\n' := by
  unfold hexChar
  split_ifs with h1 h2
  · interval_cases n <;> decide
  · interval_cases n <;> decide
  · decide

theorem noNewline_singleton {c : Char} (h : c ≠ '\n') :
    NoNewline (String.singleton c) := by
  intro hc
  exact h (List.eq_of_mem_singleton hc).symm

theorem escapeChar_noNewline (c : Char) : NoNewline (escapeChar c) := by
  unfold escapeChar
  split_ifs with h1 h2 h3 h4 h5 h6
  · decide
  · decide
  · decide
  · decide
  · decide
  · simp only [noNewline_append]
    exact ⟨⟨by decide, noNewline_singleton (hexChar_ne_newline _)⟩,
      noNewline_singleton (hexChar_ne_newline _)⟩
  · exact noNewline_singleton h3

theorem escapeList_noNewline (cs : List Char) : NoNewline (escapeList cs) := by
  induction cs with
  | nil => decide
  | cons c cs ih =>
    exact (noNewline_append (a := escapeChar c) (b := escapeList cs)).mpr
      ⟨escapeChar_noNewline c, ih⟩

theorem digitChar_ne_newline (n : Nat) : Nat.digitChar n ≠ '\n' := by
  match n with
  | 0 => decide
  | 1 => decide
  | 2 => decide
  | 3 => decide
  | 4 => decide
  | 5 => decide
  | 6 => decide
  | 7 => decide
  | 8 => decide
  | 9 => decide
  | 10 => decide
  | 11 => decide
  | 12 => decide
  | 13 => decide
  | 14 => decide
  | 15 => decide
  | m + 16 =>
    show '*' ≠ '\n'
    decide

theorem toDigitsCore_ne_newline (b : Nat) :
    ∀ (fuel n : Nat) (ds : List Char), (∀ c ∈ ds, c ≠ '\n') →
      ∀ c ∈ Nat.toDigitsCore b fuel n ds, c ≠ '\n' := by
  intro fuel
  induction fuel with
  | zero =>
    intro n ds hds c hc
    exact hds c hc
  | succ f ih =>
    intro n ds hds c hc
    simp only [Nat.toDigitsCore] at hc
    split at hc
    · rcases List.mem_cons.mp hc with h | h
      · exact h ▸ digitChar_ne_newline _
      · exact hds c h
    · refine ih _ _ ?_ c hc
      intro c' hc'
      rcases List.mem_cons.mp hc' with h | h
      · exact h ▸ digitChar_ne_newline _
      · exact hds c' h

theorem natRepr_noNewline (n : Nat) : NoNewline (Nat.repr n) := by
  intro h
  exact toDigitsCore_ne_newline 10 (n + 1) n [] (by simp) '\n' h rfl

theorem intToString_noNewline (i : Int) : NoNewline (toString i) := by
  cases i with
  | ofNat m =>
    exact natRepr_noNewline m
  | negSucc m =>
    have hrepr : toString (Int.negSucc m) = "-" ++ Nat.repr (m + 1) := rfl
    rw [hrepr]
    exact (noNewline_append).mpr ⟨by decide, natRepr_noNewline (m + 1)⟩

mutual

theorem dumps_noNewline : ∀ j : Json, NoNewline (dumps j)
  | .null => by decide
  | .bool true => by decide
  | .bool false => by decide
  | .num n => intToString_noNewline n
  | .str s => by
    simp only [dumps, escapeString, noNewline_append]
    exact ⟨⟨by decide, escapeList_noNewline s.data⟩, by decide⟩
  | .arr elems => by
    simp only [dumps, noNewline_append]
    exact ⟨⟨by decide, dumpsElems_noNewline elems⟩, by decide⟩
  | .obj fields => by
    simp only [dumps, noNewline_append]
    exact ⟨⟨by decide, dumpsFields_noNewline fields⟩, by decide⟩

theorem dumpsElems_noNewline : ∀ l : List Json, NoNewline (dumpsElems l)
  | [] => by decide
  | [x] => by
    simp only [dumpsElems]
    exact dumps_noNewline x
  | x :: y :: xs => by
    simp only [dumpsElems, noNewline_append]
    exact ⟨⟨dumps_noNewline x, by decide⟩, dumpsElems_noNewline (y :: xs)⟩

theorem dumpsFields_noNewline : ∀ l : List (String × Json), NoNewline (dumpsFields l)
  | [] => by decide
  | [f] => by
    simp only [dumpsFields, escapeString, noNewline_append]
    exact ⟨⟨⟨by decide, escapeList_noNewline f.1.data⟩, by decide⟩, dumps_noNewline f.2⟩
  | f :: g :: fs => by
    simp only [dumpsFields, escapeString, noNewline_append]
    exact ⟨⟨⟨⟨⟨by decide, escapeList_noNewline f.1.data⟩, by decide⟩,
      dumps_noNewline f.2⟩, by decide⟩, dumpsFields_noNewline (g :: fs)⟩

end

/-- C3: per request, `send_mcp_request` flushes to the proxy's stdin exactly
the serialized request followed by exactly one newline (the serialization
itself is newline-free, so the write is one JSON document on one line, and
nothing stays buffered — the flush is immediate); it then consumes exactly
one line of the proxy's stdout, and when no line is available (end of
stream) it raises (`Except.error`) instead of returning a response. -/
theorem send_mcp_request_wire (request : Json) (p : ProcState)
    (hbuf : p.buffered = "") :
    (send_mcp_request request p).2.1.flushed = p.flushed ++ (dumps request ++ "\n") ∧
    (send_mcp_request request p).2.1.buffered = "" ∧
    NoNewline (dumps request) ∧
    (dumps request ++ "\n").data.count '\n' = 1 ∧
    (∀ line rest, p.stdoutLines = line :: rest →
      (send_mcp_request request p).2.1.stdoutLines = rest) ∧
    (p.stdoutLines = [] →
      (send_mcp_request request p).1 = Except.error "No response from proxy") := by
  have hcount : (dumps request ++ "\n").data.count '\n' = 1 := by
    rw [String.data_append, List.count_append,
      List.count_eq_zero.mpr (dumps_noNewline request)]
    decide
  refine ⟨?_, ?_, dumps_noNewline request, hcount, ?_, ?_⟩
  · cases hl : p.stdoutLines with
    | nil => simp [send_mcp_request, hl, hbuf]
    | cons line rest =>
      cases hp : loads line <;> simp [send_mcp_request, hl, hp, hbuf]
  · cases hl : p.stdoutLines with
    | nil => simp [send_mcp_request, hl]
    | cons line rest =>
      cases hp : loads line <;> simp [send_mcp_request, hl, hp]
  · intro line rest hl
    cases hp : loads line <;> simp [send_mcp_request, hl, hp]
  · intro hl
    simp [send_mcp_request, hl]

/-- Witness: at end of stream `send_mcp_request` flushes the one request
line and raises. -/
theorem send_mcp_request_wire_witness :
    (send_mcp_request initializeReq ⟨"", "", []⟩).2.1.flushed =
      "" ++ (dumps initializeReq ++ "\n") ∧
    (send_mcp_request initializeReq ⟨"", "", []⟩).1 =
      Except.error "No response from proxy" := by
  have h := send_mcp_request_wire initializeReq ⟨"", "", []⟩ rfl
  exact ⟨h.1, h.2.2.2.2.2 rfl⟩

/-! ## The try-block as a function of the response stream -/

theorem runTests_flag (tests : List (Json × (Json → Bool))) :
    ∀ p : ProcState, (runTests tests p).1 = checksList tests p.stdoutLines := by
  induction tests with
  | nil => intro p; rfl
  | cons tc rest ih =>
    intro p
    obtain ⟨rq, chk⟩ := tc
    cases hl : p.stdoutLines with
    | nil =>
      simp [runTests, send_mcp_request, hl, checksList]
    | cons line ls =>
      cases hp : loads line with
      | none =>
        simp [runTests, send_mcp_request, hl, hp, checksList, respOk]
      | some j =>
        by_cases hchk : chk j = true
        · simp only [runTests, send_mcp_request, hl, hp, hchk, if_true, checksList, respOk]
          rw [ih]
          simp [hchk]
        · simp [runTests, send_mcp_request, hl, hp, hchk, checksList, respOk]

theorem checksList_testSequence (out : List String) :
    checksList testSequence out = allTestsPass out := by
  rcases out with _ | ⟨l1, _ | ⟨l2, _ | ⟨l3, _ | ⟨l4, rest⟩⟩⟩⟩ <;>
    simp [checksList, testSequence, allTestsPass, Bool.and_assoc]

theorem main_exit_zero_iff (colony : HttpOutcome) (early : Bool) (out : List String) :
    (main colony early out).exit = 0 ↔
      (check_colony_running colony = true ∧ early = false ∧ allTestsPass out = true) := by
  cases colony with
  | exc m => simp [main, check_colony_running]
  | response st body =>
    cases early with
    | true => simp [main, check_colony_running]
    | false =>
      have hflag : (runTests testSequence ⟨"", "", out⟩).1 = allTestsPass out := by
        rw [runTests_flag]
        exact checksList_testSequence out
      cases hall : allTestsPass out with
      | true => simp [main, check_colony_running, hflag, hall]
      | false => simp [main, check_colony_running, hflag, hall]

theorem main_cleanup_of (colony : HttpOutcome) (early : Bool) (out : List String)
    (hc : check_colony_running colony = true) (he : early = false) :
    (main colony early out).stdinClosed = true ∧
    (main colony early out).terminated = true ∧
    (main colony early out).waited = true := by
  subst he
  simp [main, hc]

theorem main_exit01 (colony : HttpOutcome) (early : Bool) (out : List String) :
    (main colony early out).exit = 0 ∨ (main colony early out).exit = 1 := by
  cases colony with
  | exc m => simp [main, check_colony_running]
  | response st body =>
    cases early with
    | true => simp [main, check_colony_running]
    | false =>
      cases hflag : (runTests testSequence ⟨"", "", out⟩).1 <;>
        simp [main, check_colony_running, hflag]

/-! ## C10: cleanup and exit code of `main` -/

/-- C10 counterexample: if the proxy process exits during the one-second
startup window (`process.poll() is not None`), `main` returns 1 after the
subprocess was started but before the try/finally is entered — stdin is not
closed, the process is not terminated, and it is not waited for. -/
theorem startup_failure_skips_cleanup :
    (main (.response 200 "") true []).started = true ∧
    (main (.response 200 "") true []).stdinClosed = false ∧
    (main (.response 200 "") true []).terminated = false ∧
    (main (.response 200 "") true []).waited = false ∧
    (main (.response 200 "") true []).exit = 1 :=
  ⟨rfl, rfl, rfl, rfl, rfl⟩

/-- C10 (amended): once the proxy has been started AND the post-startup poll
finds it still running, the harness performs the finally-block cleanup
(close stdin, terminate, wait) on every exit path; `main` returns 0 exactly
when the colony check passed, the proxy survived startup, and all four tests
passed, and returns 1 in every other case. -/
theorem main_cleanup_and_exit (colony : HttpOutcome) (early : Bool) (out : List String) :
    ((check_colony_running colony = true ∧ early = false) →
      (main colony early out).stdinClosed = true ∧
      (main colony early out).terminated = true ∧
      (main colony early out).waited = true) ∧
    ((main colony early out).exit = 0 ↔
      (check_colony_running colony = true ∧ early = false ∧ allTestsPass out = true)) ∧
    ((main colony early out).exit = 0 ∨ (main colony early out).exit = 1) :=
  ⟨fun h => main_cleanup_of colony early out h.1 h.2,
   main_exit_zero_iff colony early out,
   main_exit01 colony early out⟩

/-- Witness: a healthy run over a concrete good output stream cleans up and
exits 0. -/
theorem main_cleanup_and_exit_witness :
    (main (.response 200 "ok") false goodProxyOutput).stdinClosed = true ∧
    (main (.response 200 "ok") false goodProxyOutput).exit = 0 := by
  have h := main_cleanup_and_exit (.response 200 "ok") false goodProxyOutput
  exact ⟨(h.1 ⟨rfl, rfl⟩).1, h.2.1.mpr ⟨rfl, rfl, by decide⟩⟩

/-! ## C4: response ids must echo request ids -/

theorem respOk_elim {check : Json → Bool} {line : String}
    (h : respOk check line = true) :
    ∃ j, loads line = some j ∧ check j = true := by
  unfold respOk at h
  split at h
  · rename_i j hj
    exact ⟨j, hj, h⟩
  · exact absurd h (by simp)

theorem test1_id {j : Json} (h : test1 j = true) : j.get? "id" = some (.num 1) := by
  unfold test1 at h
  simp only [Bool.and_eq_true] at h
  exact isNumVal_eq_true.mp h.1.1.1.2

theorem test2_id {j : Json} (h : test2 j = true) : j.get? "id" = some (.num 2) := by
  unfold test2 at h
  simp only [Bool.and_eq_true] at h
  exact isNumVal_eq_true.mp h.1.1.1.2

theorem test3_id {j : Json} (h : test3 j = true) : j.get? "id" = some (.num 3) := by
  unfold test3 at h
  simp only [Bool.and_eq_true] at h
  exact isNumVal_eq_true.mp h.1.2

theorem test4_id {j : Json} (h : test4 j = true) : j.get? "id" = some (.num 4) := by
  unfold test4 at h
  simp only [Bool.and_eq_true] at h
  exact isNumVal_eq_true.mp h.1.1.2

/-- C4: whenever `main` returns 0, each of the four response lines it read
parsed to a JSON value whose `id` member equals the id of the request it was
sent for — 1, 2, 3, 4 in order; each test block asserts
`response["id"] == k` and a mismatch fails the harness. -/
theorem response_ids_match (colony : HttpOutcome) (early : Bool) (out : List String)
    (hexit : (main colony early out).exit = 0) :
    ∀ k, k < 4 → ∃ line j, out.get? k = some line ∧ loads line = some j ∧
      j.get? "id" = some (.num ((k : Int) + 1)) := by
  have hall : allTestsPass out = true :=
    ((main_exit_zero_iff colony early out).mp hexit).2.2
  rcases out with _ | ⟨l1, _ | ⟨l2, _ | ⟨l3, _ | ⟨l4, rest⟩⟩⟩⟩
  · simp [allTestsPass] at hall
  · simp [allTestsPass] at hall
  · simp [allTestsPass] at hall
  · simp [allTestsPass] at hall
  · simp only [allTestsPass, Bool.and_eq_true] at hall
    obtain ⟨⟨⟨h1, h2⟩, h3⟩, h4⟩ := hall
    intro k hk
    interval_cases k
    · obtain ⟨j, hj, hc⟩ := respOk_elim h1
      exact ⟨l1, j, rfl, hj, test1_id hc⟩
    · obtain ⟨j, hj, hc⟩ := respOk_elim h2
      exact ⟨l2, j, rfl, hj, test2_id hc⟩
    · obtain ⟨j, hj, hc⟩ := respOk_elim h3
      exact ⟨l3, j, rfl, hj, test3_id hc⟩
    · obtain ⟨j, hj, hc⟩ := respOk_elim h4
      exact ⟨l4, j, rfl, hj, test4_id hc⟩

/-- Witness: on a concrete passing run, the third response carries id 3. -/
theorem response_ids_match_witness :
    ∃ line j, goodProxyOutput.get? 2 = some line ∧ loads line = some j ∧
      j.get? "id" = some (.num (((2 : Nat) : Int) + 1)) :=
  response_ids_match (.response 200 "ok") false goodProxyOutput (by decide) 2
    (by decide)

/-! ## C5: strictly sequential exchanges in a fixed order -/

theorem runTests_trace_initial (tests : List (Json × (Json → Bool))) :
    ∀ p : ProcState, ∃ t,
      interleave (tests.map Prod.fst) p.stdoutLines = (runTests tests p).2.2 ++ t := by
  induction tests with
  | nil => intro p; exact ⟨[], rfl⟩
  | cons tc rest ih =>
    intro p
    obtain ⟨rq, chk⟩ := tc
    cases hl : p.stdoutLines with
    | nil =>
      refine ⟨[], ?_⟩
      simp [interleave, runTests, send_mcp_request, hl, requestLine]
    | cons line ls =>
      cases hp : loads line with
      | none =>
        refine ⟨interleave (rest.map Prod.fst) ls, ?_⟩
        simp [interleave, runTests, send_mcp_request, hl, hp, requestLine]
      | some j =>
        by_cases hchk : chk j = true
        · obtain ⟨t, ht⟩ := ih
            { flushed := p.flushed ++ p.buffered ++ (dumps rq ++ "\n")
              buffered := ""
              stdoutLines := ls }
          refine ⟨t, ?_⟩
          simp only [interleave, runTests, send_mcp_request, hl, hp, hchk, if_true,
            List.map_cons, requestLine]
          simpa [requestLine] using congrArg
            (fun evs => Event.write (dumps rq ++ "\n") :: Event.read line :: evs) ht
        · refine ⟨interleave (rest.map Prod.fst) ls, ?_⟩
          simp [interleave, runTests, send_mcp_request, hl, hp, hchk, requestLine]

/-- C5: the harness never pipelines — its interaction trace is always an
initial segment of the fully alternating write/read sequence generated by
the four requests in program order (each request line written, then exactly
one response line read, before the next request is written); and the four
requests are, in order, initialize, tools/list, tools/call, list_tools with
ids 1, 2, 3, 4. -/
theorem requests_sequential (colony : HttpOutcome) (early : Bool) (out : List String) :
    (∃ t, interleave (testSequence.map Prod.fst) out =
      (main colony early out).trace ++ t) ∧
    testSequence.map Prod.fst =
      [initializeReq, toolsListReq, toolsCallReq, invalidMethodReq] ∧
    [initializeReq, toolsListReq, toolsCallReq, invalidMethodReq].map
        (fun q => q.get? "method") =
      [some (.str "initialize"), some (.str "tools/list"),
       some (.str "tools/call"), some (.str "list_tools")] ∧
    [initializeReq, toolsListReq, toolsCallReq, invalidMethodReq].map
        (fun q => q.get? "id") =
      [some (.num 1), some (.num 2), some (.num 3), some (.num 4)] := by
  refine ⟨?_, rfl, rfl, rfl⟩
  cases colony with
  | exc m =>
    exact ⟨interleave (testSequence.map Prod.fst) out, by simp [main, check_colony_running]⟩
  | response st body =>
    cases early with
    | true =>
      exact ⟨interleave (testSequence.map Prod.fst) out, by simp [main, check_colony_running]⟩
    | false =>
      obtain ⟨t, ht⟩ := runTests_trace_initial testSequence ⟨"", "", out⟩
      exact ⟨t, by simpa [main, check_colony_running] using ht⟩

/-- Witness: the trace of a concrete passing run is an initial segment of
the alternating sequence. -/
theorem requests_sequential_witness :
    ∃ t, interleave (testSequence.map Prod.fst) goodProxyOutput =
      (main (.response 200 "ok") false goodProxyOutput).trace ++ t :=
  (requests_sequential (.response 200 "ok") false goodProxyOutput).1

end CoralMcp
